import Mathlib

/-!
Verification of the morphx status-board application (`src/app.py`).

The application is a thin Flask front end over a Supabase backend holding
three tables: `resources(id, name, image_url)`,
`status_updates(id, resource_id, status_message, crowd_level,
chips_available, queue_length, created_at)` and
`upvotes(id, resource_id, user_id)`.

We shallowly embed the database as three Lean lists, the Flask session as a
record of optional keys, and each route handler as a pure function from its
request inputs (form fields, JSON body, the nondeterministically generated
uuid4 values, and the backend auth outcome) and the current database/session
to a handler result plus the updated database/session.
-/

namespace Morphx

/-- A row of the `resources` table.  `create_post` inserts rows with only
`id` and `name`, so `image_url` is optional. -/
structure Resource where
  id : String
  name : String
  image_url : Option String
deriving DecidableEq, Repr

/-- A row of the `status_updates` table.  Rows inserted by this code never
carry a `created_at` value, hence the field is optional; rows written by
other agents may have one (modelled as a numeric timestamp). -/
structure StatusUpdate where
  id : String
  resource_id : String
  status_message : String
  crowd_level : String
  chips_available : String
  queue_length : String
  created_at : Option Nat
deriving DecidableEq, Repr

/-- A row of the `upvotes` table.  `user_id` comes from
`session.get('user_id')`, which may be absent, so it is optional. -/
structure Upvote where
  id : String
  resource_id : String
  user_id : Option String
deriving DecidableEq, Repr

/-- The backend state: the three tables, each as a list of rows. -/
structure DB where
  resources : List Resource
  status_updates : List StatusUpdate
  upvotes : List Upvote
deriving DecidableEq, Repr

/-- The view model assembled by `fetch_posts` for one resource. -/
structure Post where
  id : String
  title : String
  image_url : Option String
  description : String
  upvotes : Nat
  comments : Nat
  crowd : String
  chips : String
  queue : String
deriving DecidableEq, Repr

/-- The ordering used by `order('created_at', desc=True)`: larger
timestamps first; a row with no `created_at` (SQL NULL) sorts first under
descending order, per the Postgres default of NULLS FIRST for DESC. -/
def createdDesc (a b : StatusUpdate) : Prop :=
  match a.created_at, b.created_at with
  | none, _ => True
  | some _, none => False
  | some x, some y => y ≤ x

instance : DecidableRel createdDesc := fun a b => by
  unfold createdDesc
  cases a.created_at <;> cases b.created_at <;> infer_instance

/-- The single status row consumed for a resource:
`status_updates` filtered to the resource, ordered by `created_at`
descending, limit 1 (`None` when the resource has no status rows). -/
def latestStatus (db : DB) (rid : String) : Option StatusUpdate :=
  (List.insertionSort createdDesc
    (db.status_updates.filter (fun s => s.resource_id == rid))).head?

/-- The upvote count for a resource: the exact count of `upvotes` rows whose
`resource_id` matches, as returned by `select('id', count='exact')`. -/
def upvoteCount (db : DB) (rid : String) : Nat :=
  (db.upvotes.filter (fun u => u.resource_id == rid)).length

/-- The Post dictionary built for one resource inside the `fetch_posts`
loop (lines 38-48 of `app.py`). -/
def postFor (db : DB) (resource : Resource) : Post :=
  let status := latestStatus db resource.id
  { id := resource.id
    title := resource.name
    image_url := resource.image_url
    description := match status with | some s => s.status_message | none => ""
    upvotes := upvoteCount db resource.id
    comments := 0
    crowd := match status with | some s => s.crowd_level | none => ""
    chips := match status with | some s => s.chips_available | none => ""
    queue := match status with | some s => s.queue_length | none => "" }

/-- The comparison realised by `posts.sort(key=lambda x: x['upvotes'],
reverse=True)`: a post may appear before another exactly when its upvote
count is at least as large. -/
def postsDesc (a b : Post) : Prop := b.upvotes ≤ a.upvotes

instance : DecidableRel postsDesc := fun a b => Nat.decLe b.upvotes a.upvotes

instance : IsTotal Post postsDesc :=
  ⟨fun a b => Nat.le_total b.upvotes a.upvotes⟩

instance : IsTrans Post postsDesc :=
  ⟨fun _ _ _ hab hbc => Nat.le_trans hbc hab⟩

/-- `fetch_posts` (lines 13-52 of `app.py`): one Post per resource row, then
a stable sort by upvote count descending.  Python's `list.sort` is stable,
and a stable sort is determined extensionally by its comparison, so the
stable `insertionSort` with the same comparison computes the same list. -/
def fetch_posts (db : DB) : List Post :=
  List.insertionSort postsDesc (db.resources.map (postFor db))

/-- The Flask session: a cookie-backed mapping.  Only the three keys this
application ever writes are modelled; `none` means the key is absent. -/
structure Session where
  username : Option String
  user_id : Option String
  is_admin : Option Bool
deriving DecidableEq, Repr

/-- A session in which none of the keys has been set. -/
def Session.empty : Session := ⟨none, none, none⟩

/-- What a handler returns to the web framework: a redirect to a named
endpoint, a rendered template with an optional `error` string, or a JSON
body.  JSON responses are `jsonOk count` for
`jsonify({'success': True, 'upvotes': count})` (status 200) and
`jsonErr msg status` for `jsonify({'error': msg}), status`. -/
inductive HandlerResult where
  | redirect (endpoint : String)
  | render (template : String) (error : Option String)
  | jsonOk (upvotes : Nat)
  | jsonErr (error : String) (status : Nat)
deriving DecidableEq, Repr

/-- The `upvote` handler (lines 60-93 of `app.py`).  `resource_id` is the
JSON body field, `freshId` the uuid4 generated for the insert.  Returns the
response and the resulting database. -/
def upvote (sess : Session) (resource_id : String) (freshId : String)
    (db : DB) : HandlerResult × DB :=
  match sess.username with
  | none => (.jsonErr "Login required" 401, db)
  | some _ =>
    let user_id := sess.user_id
    let existing := db.upvotes.filter
      (fun u => u.resource_id == resource_id && u.user_id == user_id)
    if existing.isEmpty then
      let db' := { db with
        upvotes := db.upvotes ++ [⟨freshId, resource_id, user_id⟩] }
      (.jsonOk (upvoteCount db' resource_id), db')
    else
      (.jsonErr "Already upvoted" 409, db)

/-- Outcome of a backend auth call (`sign_in_with_password` / `sign_up`):
either it returns a response with a usable `.user` carrying an id, or a
response whose `user` is missing/falsy, or it raises an exception whose
`str(e)` is `message`. -/
inductive AuthOutcome where
  | ok (uid : String)
  | noUser
  | exn (message : String)
deriving DecidableEq, Repr

/-- The POST branch of the `login` handler (lines 129-144 of `app.py`),
with the backend's response as an explicit input. -/
def login (outcome : AuthOutcome) (username : String) (sess : Session) :
    HandlerResult × Session :=
  match outcome with
  | .ok uid =>
      (.redirect "profile",
       { sess with
          username := some username, is_admin := some false,
          user_id := some uid })
  | .noUser => (.render "login.html" (some "Invalid credentials"), sess)
  | .exn msg => (.render "login.html" (some msg), sess)

/-- The POST branch of the `register` handler (lines 150-162 of `app.py`).
Note: unlike `login`, it does not write the `is_admin` session key. -/
def register (outcome : AuthOutcome) (username : String) (sess : Session) :
    HandlerResult × Session :=
  match outcome with
  | .ok uid =>
      (.redirect "profile",
       { sess with username := some username, user_id := some uid })
  | .noUser => (.render "register.html" (some "Registration failed"), sess)
  | .exn msg => (.render "register.html" (some msg), sess)

/-- The in-place field update applied by `update_post`'s update branch to
every `status_updates` row whose `resource_id` matches. -/
def applyUpdate (post_id description crowd chips queue : String)
    (s : StatusUpdate) : StatusUpdate :=
  if s.resource_id == post_id then
    { s with
        crowd_level := crowd, chips_available := chips,
        queue_length := queue, status_message := description }
  else s

/-- The `update_post` handler (lines 185-214 of `app.py`), after the
`login_required` gate: reads the four form fields, checks for existing
status rows for `post_id`, updates them all in place if any, otherwise
inserts one fresh row; redirects to the index either way. -/
def update_post (post_id description crowd chips queue : String)
    (freshId : String) (db : DB) : HandlerResult × DB :=
  let status := db.status_updates.filter (fun s => s.resource_id == post_id)
  if status.isEmpty then
    (.redirect "index",
     { db with status_updates := db.status_updates ++
        [⟨freshId, post_id, description, crowd, chips, queue, none⟩] })
  else
    (.redirect "index",
     { db with status_updates :=
        db.status_updates.map (applyUpdate post_id description crowd chips queue) })

/-- The POST branch of the `create_post` handler (lines 220-244 of
`app.py`), after the `login_required` gate: inserts one resource row with
the fresh id `rid` (payload has no `image_url`), then one status row with
the fresh id `sid` referencing it (payload has no `created_at`); redirects
to the index. -/
def create_post (title description crowd chips queue : String)
    (rid sid : String) (db : DB) : HandlerResult × DB :=
  (.redirect "index",
   { db with
      resources := db.resources ++ [⟨rid, title, none⟩],
      status_updates := db.status_updates ++
        [⟨sid, rid, description, crowd, chips, queue, none⟩] })

example :
    fetch_posts
      { resources := [⟨"r1", "Venue", none⟩],
        status_updates := [], upvotes := [] }
    = [⟨"r1", "Venue", none, "", 0, 0, "", "", ""⟩] := by decide

example :
    fetch_posts
      { resources := [⟨"r1", "A", none⟩, ⟨"r2", "B", none⟩],
        status_updates := [],
        upvotes := [⟨"u1", "r2", some "alice"⟩] }
    = [⟨"r2", "B", none, "", 1, 0, "", "", ""⟩,
       ⟨"r1", "A", none, "", 0, 0, "", "", ""⟩] := by decide

/-! ### Concrete sample data used by the closed witness theorems -/

/-- Two resources, no status rows, one upvote for `r2`. -/
def dbTwo : DB :=
  { resources := [⟨"r1", "A", none⟩, ⟨"r2", "B", none⟩],
    status_updates := [],
    upvotes := [⟨"u1", "r2", some "alice"⟩] }

/-- An entirely empty backend. -/
def dbEmpty : DB := ⟨[], [], []⟩

/-- One resource with one existing status row. -/
def dbS : DB :=
  { resources := [⟨"r1", "A", none⟩],
    status_updates := [⟨"s1", "r1", "m", "low", "yes", "short", some 5⟩],
    upvotes := [] }

/-- One resource that user `uid1` has already upvoted. -/
def dbDup : DB :=
  { resources := [⟨"r1", "A", none⟩],
    status_updates := [],
    upvotes := [⟨"u1", "r1", some "uid1"⟩] }

/-- A logged-in session. -/
def sessAlice : Session := ⟨some "alice", some "uid1", some false⟩

/-! ### Claims about `fetch_posts` -/

/-- Claim C1: for every list of resource rows returned by the backend (here,
with distinct resource ids), `fetch_posts` produces exactly one Post per
resource, and every Post carrying that resource's id has `upvotes` equal to
the number of upvote rows whose `resource_id` references the resource. -/
theorem fetch_posts_one_post_per_resource (db : DB)
    (hid : (db.resources.map Resource.id).Nodup)
    (r : Resource) (hr : r ∈ db.resources) :
    (fetch_posts db).countP (fun p => p.id == r.id) = 1 ∧
    ∀ p ∈ fetch_posts db, p.id = r.id →
      p.upvotes = (db.upvotes.filter (fun u => u.resource_id == r.id)).length := by
  have hperm := List.perm_insertionSort postsDesc (db.resources.map (postFor db))
  constructor
  · have h1 : (fetch_posts db).countP (fun p => p.id == r.id)
        = (db.resources.map (postFor db)).countP (fun p => p.id == r.id) :=
      hperm.countP_eq _
    rw [h1, List.countP_map]
    have h4 : List.countP ((fun p => p.id == r.id) ∘ postFor db) db.resources
        = List.count r.id (db.resources.map Resource.id) := by
      rw [List.count_eq_countP, List.countP_map]
      rfl
    rw [h4]
    exact List.count_eq_one_of_mem hid (List.mem_map_of_mem _ hr)
  · intro p hp hpid
    have hp' : p ∈ db.resources.map (postFor db) := hperm.subset hp
    obtain ⟨r', hr', rfl⟩ := List.mem_map.mp hp'
    have hid' : r'.id = r.id := hpid
    show upvoteCount db r'.id
      = (db.upvotes.filter (fun u => u.resource_id == r.id)).length
    rw [hid']
    rfl

/-- Claim C1, witnessed on a concrete backend state. -/
theorem fetch_posts_one_post_per_resource_witness :
    (fetch_posts dbTwo).countP (fun p => p.id == "r1") = 1 ∧
    ∀ p ∈ fetch_posts dbTwo, p.id = "r1" →
      p.upvotes = (dbTwo.upvotes.filter (fun u => u.resource_id == "r1")).length :=
  fetch_posts_one_post_per_resource dbTwo (by decide) ⟨"r1", "A", none⟩ (by decide)

/-- Claim C2: the list returned by `fetch_posts` is sorted by `upvotes`
descending: whenever position `i` comes before position `j`, the post at
`i` has at least as many upvotes as the post at `j`. -/
theorem fetch_posts_sorted_desc (db : DB) (i j : Nat)
    (hi : i < (fetch_posts db).length) (hj : j < (fetch_posts db).length)
    (hij : i < j) :
    ((fetch_posts db).get ⟨j, hj⟩).upvotes
      ≤ ((fetch_posts db).get ⟨i, hi⟩).upvotes := by
  have hs : List.Sorted postsDesc (fetch_posts db) :=
    List.sorted_insertionSort postsDesc _
  exact hs.rel_get_of_lt (a := ⟨i, hi⟩) (b := ⟨j, hj⟩) hij

/-- Claim C2, witnessed on a concrete two-post listing. -/
theorem fetch_posts_sorted_desc_witness :
    ((fetch_posts dbTwo).get ⟨1, by decide⟩).upvotes
      ≤ ((fetch_posts dbTwo).get ⟨0, by decide⟩).upvotes :=
  fetch_posts_sorted_desc dbTwo 0 1 (by decide) (by decide) (by decide)

/-- Claim C9: a resource with no status rows and no upvote rows yields a
Post with empty `description`, `crowd`, `chips`, `queue`, zero `upvotes`
and zero `comments`, and that Post is in the `fetch_posts` output. -/
theorem fetch_posts_defaults (db : DB) (r : Resource) (hr : r ∈ db.resources)
    (hs : ∀ s ∈ db.status_updates, s.resource_id ≠ r.id)
    (hu : ∀ u ∈ db.upvotes, u.resource_id ≠ r.id) :
    postFor db r = ⟨r.id, r.name, r.image_url, "", 0, 0, "", "", ""⟩ ∧
    postFor db r ∈ fetch_posts db := by
  have h1 : db.status_updates.filter (fun s => s.resource_id == r.id) = [] := by
    rw [List.filter_eq_nil_iff]
    intro s hsin
    simpa using hs s hsin
  have h2 : db.upvotes.filter (fun u => u.resource_id == r.id) = [] := by
    rw [List.filter_eq_nil_iff]
    intro u huin
    simpa using hu u huin
  constructor
  · simp [postFor, latestStatus, upvoteCount, h1, h2]
  · exact (List.perm_insertionSort postsDesc _).symm.subset
      (List.mem_map_of_mem _ hr)

/-- Claim C9, witnessed on a concrete resource with no status or upvote
rows. -/
theorem fetch_posts_defaults_witness :
    postFor dbTwo ⟨"r1", "A", none⟩ = ⟨"r1", "A", none, "", 0, 0, "", "", ""⟩ ∧
    postFor dbTwo ⟨"r1", "A", none⟩ ∈ fetch_posts dbTwo :=
  fetch_posts_defaults dbTwo ⟨"r1", "A", none⟩ (by decide) (by decide) (by decide)

/-! ### Claims about the `upvote` handler -/

/-- Claim C4: an upvote request from an authenticated session, when an
upvote row with the same (resource_id, user_id) pair already exists,
responds with the conflict error `Already upvoted` and status 409, leaves
the database (hence the upvotes table) unchanged, and the upvote count for
that resource is unchanged. -/
theorem upvote_conflict (sess : Session) (rid fid : String) (db : DB)
    (hauth : sess.username ≠ none)
    (hdup : ∃ u ∈ db.upvotes, u.resource_id = rid ∧ u.user_id = sess.user_id) :
    upvote sess rid fid db = (.jsonErr "Already upvoted" 409, db) ∧
    (upvote sess rid fid db).2.upvotes = db.upvotes ∧
    upvoteCount (upvote sess rid fid db).2 rid = upvoteCount db rid := by
  obtain ⟨u, hu, h1, h2⟩ := hdup
  have hne : db.upvotes.filter
      (fun v => v.resource_id == rid && v.user_id == sess.user_id) ≠ [] :=
    List.ne_nil_of_mem (List.mem_filter.mpr ⟨hu, by simp [h1, h2]⟩)
  have hempty : (db.upvotes.filter
      (fun v => v.resource_id == rid && v.user_id == sess.user_id)).isEmpty
      = false := List.isEmpty_eq_false.mpr hne
  obtain ⟨nm, hsu⟩ : ∃ nm, sess.username = some nm := by
    cases h : sess.username with
    | none => exact absurd h hauth
    | some n => exact ⟨n, rfl⟩
  have hmain : upvote sess rid fid db = (.jsonErr "Already upvoted" 409, db) := by
    unfold upvote
    rw [hsu]
    simp [hempty]
  exact ⟨hmain, by rw [hmain], by rw [hmain]⟩

/-- Claim C4, witnessed: `uid1` upvoting `r1` a second time is rejected. -/
theorem upvote_conflict_witness :
    upvote sessAlice "r1" "u2" dbDup = (.jsonErr "Already upvoted" 409, dbDup) ∧
    (upvote sessAlice "r1" "u2" dbDup).2.upvotes = dbDup.upvotes ∧
    upvoteCount (upvote sessAlice "r1" "u2" dbDup).2 "r1"
      = upvoteCount dbDup "r1" :=
  upvote_conflict sessAlice "r1" "u2" dbDup (by decide) (by decide)

/-- Claim C7: an upvote request whose session has no `username` key is
answered with the error `Login required` and status 401, and the upvotes
table is unchanged (no insert happens). -/
theorem upvote_login_required (sess : Session) (rid fid : String) (db : DB)
    (h : sess.username = none) :
    upvote sess rid fid db = (.jsonErr "Login required" 401, db) ∧
    (upvote sess rid fid db).2.upvotes = db.upvotes := by
  have hmain : upvote sess rid fid db = (.jsonErr "Login required" 401, db) := by
    unfold upvote
    rw [h]
  exact ⟨hmain, by rw [hmain]⟩

/-- Claim C7, witnessed on the empty session. -/
theorem upvote_login_required_witness :
    upvote Session.empty "r1" "u9" dbTwo = (.jsonErr "Login required" 401, dbTwo) ∧
    (upvote Session.empty "r1" "u9" dbTwo).2.upvotes = dbTwo.upvotes :=
  upvote_login_required Session.empty "r1" "u9" dbTwo rfl

/-! ### Claims about `login` and `register` -/

/-- Claim C3 counterexample: on a successful backend sign-up, the register
handler leaves the `is_admin` session key unset (`none`), contradicting the
claim that both handlers set `is_admin` to false. -/
theorem register_skips_is_admin_cex :
    (register (.ok "u1") "alice" Session.empty).2.is_admin = none := by
  decide

/-- Claim C3 (amended): on a successful backend sign-in, `login` populates
the session with `username`, `user_id` and `is_admin=false` and redirects
to the profile page; on a successful sign-up, `register` populates only
`username` and `user_id`, leaves `is_admin` as it was, and redirects to the
profile page. -/
theorem login_register_session_keys (uid uname : String) (sess : Session) :
    login (.ok uid) uname sess =
      (.redirect "profile",
       { sess with
          username := some uname, is_admin := some false,
          user_id := some uid }) ∧
    register (.ok uid) uname sess =
      (.redirect "profile",
       { sess with username := some uname, user_id := some uid }) ∧
    (register (.ok uid) uname sess).2.is_admin = sess.is_admin :=
  ⟨rfl, rfl, rfl⟩

/-- Claim C8 counterexample: when the backend raises an exception whose
string form is empty, the login handler re-renders the form with the empty
error string, contradicting the claim that the error string is always
non-empty. -/
theorem login_empty_error_cex :
    login (.exn "") "alice" Session.empty
      = (.render "login.html" (some ""), Session.empty) ∧
    String.length "" = 0 := by
  exact ⟨rfl, rfl⟩

/-- Claim C8 (amended): on every failed login POST the handler re-renders
the login form with an error string and leaves the session unchanged; the
error string is the non-empty `Invalid credentials` when the backend
rejects the credentials, and the exception's message (possibly empty) when
the backend raises. -/
theorem login_failure_renders_error (uname msg : String) (sess : Session) :
    login .noUser uname sess
      = (.render "login.html" (some "Invalid credentials"), sess) ∧
    ("Invalid credentials" : String) ≠ "" ∧
    login (.exn msg) uname sess = (.render "login.html" (some msg), sess) :=
  ⟨rfl, by decide, rfl⟩

/-! ### Claims about `update_post` and `create_post` -/

/-- Claim C5: when no status-update row exists for the resource,
`update_post` inserts exactly one new row (carrying the fresh id) and the
resource then has exactly one status row; when at least one row exists, no
row is inserted (length unchanged) and every row is mapped in place by
`applyUpdate`, which rewrites the four submitted fields on matching rows
and leaves non-matching rows untouched; both branches redirect to the
listing page. -/
theorem update_post_upsert (post_id d c ch q fid : String) (db : DB) :
    (db.status_updates.filter (fun s => s.resource_id == post_id) = [] →
      update_post post_id d c ch q fid db =
        (.redirect "index",
         { db with status_updates := db.status_updates ++
            [⟨fid, post_id, d, c, ch, q, none⟩] }) ∧
      (update_post post_id d c ch q fid db).2.status_updates.countP
        (fun s => s.resource_id == post_id) = 1) ∧
    (db.status_updates.filter (fun s => s.resource_id == post_id) ≠ [] →
      (update_post post_id d c ch q fid db).1 = .redirect "index" ∧
      (update_post post_id d c ch q fid db).2.status_updates.length
        = db.status_updates.length ∧
      ∀ i : Nat, (update_post post_id d c ch q fid db).2.status_updates[i]?
        = (db.status_updates[i]?).map (applyUpdate post_id d c ch q)) ∧
    (∀ s : StatusUpdate,
      (s.resource_id = post_id →
        applyUpdate post_id d c ch q s =
          { s with
              status_message := d, crowd_level := c,
              chips_available := ch, queue_length := q }) ∧
      (s.resource_id ≠ post_id → applyUpdate post_id d c ch q s = s)) := by
  refine ⟨?_, ?_, ?_⟩
  · intro hnil
    have hempty : (db.status_updates.filter
        (fun s => s.resource_id == post_id)).isEmpty = true :=
      List.isEmpty_iff.mpr hnil
    have hmain : update_post post_id d c ch q fid db =
        (.redirect "index",
         { db with status_updates := db.status_updates ++
            [⟨fid, post_id, d, c, ch, q, none⟩] }) := by
      unfold update_post
      simp [hempty]
    refine ⟨hmain, ?_⟩
    rw [hmain]
    show (db.status_updates ++ [StatusUpdate.mk fid post_id d c ch q none]).countP
      (fun s => s.resource_id == post_id) = 1
    rw [List.countP_append]
    have h0 : db.status_updates.countP (fun s => s.resource_id == post_id) = 0 := by
      rw [List.countP_eq_length_filter, hnil]
      rfl
    rw [h0]
    simp [List.countP_cons]
  · intro hne
    have hempty : (db.status_updates.filter
        (fun s => s.resource_id == post_id)).isEmpty = false :=
      List.isEmpty_eq_false.mpr hne
    have hmain : update_post post_id d c ch q fid db =
        (.redirect "index",
         { db with status_updates :=
            db.status_updates.map (applyUpdate post_id d c ch q) }) := by
      unfold update_post
      simp [hempty]
    refine ⟨by rw [hmain], ?_, ?_⟩
    · rw [hmain]
      exact List.length_map _ _
    · intro i
      rw [hmain]
      exact List.getElem?_map _ _ _
  · intro s
    constructor
    · intro hmatch
      unfold applyUpdate
      simp [hmatch]
    · intro hmatch
      unfold applyUpdate
      simp [hmatch]

/-- Claim C5, witnessed: on a backend with no status row the update inserts
exactly one row for the resource; on a backend with an existing row the row
count is unchanged. -/
theorem update_post_upsert_witness :
    (update_post "r1" "d" "lo" "y" "q" "s9" dbEmpty).2.status_updates.countP
      (fun s => s.resource_id == "r1") = 1 ∧
    (update_post "r1" "d" "lo" "y" "q" "s9" dbS).2.status_updates.length
      = dbS.status_updates.length :=
  ⟨((update_post_upsert "r1" "d" "lo" "y" "q" "s9" dbEmpty).1 (by decide)).2,
   (((update_post_upsert "r1" "d" "lo" "y" "q" "s9" dbS).2.1 (by decide)).2).1⟩

/-- Claim C6: a successful `create_post` POST inserts exactly one resource
row and exactly one status-update row, the status row's `resource_id`
equals the new resource row's `id`, the upvotes table is untouched, and the
handler redirects to the listing page. -/
theorem create_post_inserts_linked_rows
    (title d c ch q rid sid : String) (db : DB) :
    (create_post title d c ch q rid sid db).1 = .redirect "index" ∧
    (create_post title d c ch q rid sid db).2.resources
      = db.resources ++ [⟨rid, title, none⟩] ∧
    (create_post title d c ch q rid sid db).2.resources.length
      = db.resources.length + 1 ∧
    (create_post title d c ch q rid sid db).2.status_updates
      = db.status_updates ++ [⟨sid, rid, d, c, ch, q, none⟩] ∧
    (create_post title d c ch q rid sid db).2.status_updates.length
      = db.status_updates.length + 1 ∧
    (create_post title d c ch q rid sid db).2.upvotes = db.upvotes ∧
    (StatusUpdate.mk sid rid d c ch q none).resource_id
      = (Resource.mk rid title none).id :=
  ⟨rfl, rfl, by simp [create_post], rfl, by simp [create_post], rfl, rfl⟩

/-- Claim C10: every status-update row inserted by this code — by
`update_post`'s insert branch and by `create_post` — carries only the six
explicit fields and no `created_at` value, so the `created_at`-descending
ordering that `fetch_posts` uses is never established by rows this code
writes. -/
theorem inserted_status_rows_have_no_created_at
    (post_id d c ch q fid title rid sid : String) (db : DB) :
    (db.status_updates.filter (fun s => s.resource_id == post_id) = [] →
      ∀ s ∈ (update_post post_id d c ch q fid db).2.status_updates,
        s ∉ db.status_updates → s.created_at = none) ∧
    (∀ s ∈ (create_post title d c ch q rid sid db).2.status_updates,
      s ∉ db.status_updates → s.created_at = none) := by
  constructor
  · intro hnil s hmem hnotin
    have hempty : (db.status_updates.filter
        (fun s => s.resource_id == post_id)).isEmpty = true :=
      List.isEmpty_iff.mpr hnil
    have hrows : (update_post post_id d c ch q fid db).2.status_updates
        = db.status_updates ++ [⟨fid, post_id, d, c, ch, q, none⟩] := by
      unfold update_post
      simp [hempty]
    rw [hrows] at hmem
    rcases List.mem_append.mp hmem with h | h
    · exact absurd h hnotin
    · rw [List.mem_singleton.mp h]
  · intro s hmem hnotin
    have hrows : (create_post title d c ch q rid sid db).2.status_updates
        = db.status_updates ++ [⟨sid, rid, d, c, ch, q, none⟩] := rfl
    rw [hrows] at hmem
    rcases List.mem_append.mp hmem with h | h
    · exact absurd h hnotin
    · rw [List.mem_singleton.mp h]

/-- Claim C10, witnessed: the row inserted by `update_post` on an empty
backend has no `created_at` value. -/
theorem inserted_status_rows_have_no_created_at_witness :
    (StatusUpdate.mk "s9" "r1" "d" "lo" "y" "q" none).created_at = none :=
  (inserted_status_rows_have_no_created_at
      "r1" "d" "lo" "y" "q" "s9" "T" "r2" "s8" dbEmpty).1
    (by decide) (StatusUpdate.mk "s9" "r1" "d" "lo" "y" "q" none)
    (by decide) (by decide)

end Morphx
